import Mathlib

/-!
Shallow embedding of `app.py`, the FastAPI backend for cataract detection.

The program loads one or two TFLite models at startup (`_load_models`,
`_create_interpreter`), and serves `POST /predict` by running every loaded
model on the uploaded image, averaging the scores and thresholding at 0.7
(`_predict`), plus a `GET /health` endpoint.

Modelling decisions:
- Python float arithmetic is modelled exactly by `ℚ`; `round(x, n)` is
  modelled by round-half-to-even at `n` decimal digits (`pyRound`).
- A raised Python exception is modelled by `Except.error` carrying the
  message; `try/except` becomes a `match` on the `Except` value.
- A TFLite interpreter object is visible to this program only through
  `_run_inference`, which decodes and resizes the image via PIL/numpy
  (external libraries) and invokes the interpreter.  We therefore model an
  interpreter by the induced behaviour of `_run_inference` on it: a function
  from the raw image bytes to either the scalar score `float(output[0][0])`
  or a raised error.  Backend loaders (`tflite_runtime`, `tensorflow`) and
  filesystem existence are likewise external and passed as parameters.
-/

set_option autoImplicit false

/-- Raw uploaded image bytes (`bytes` in Python), as a list of byte values. -/
abbrev ImageBytes := List Nat

/-- A loaded interpreter, abstracted by what `_run_inference` does with it:
from image bytes to the scalar score, or a raised runtime error. -/
def Interpreter : Type := ImageBytes → Except String ℚ

/-- `_run_inference(interpreter, image_bytes)`: decode/resize/normalize the
image and invoke the interpreter, returning `float(output[0][0])`.  The
decode, resize and tensor plumbing live in external libraries, so the whole
call is the abstracted behaviour of the interpreter on these bytes. -/
def _run_inference (interpreter : Interpreter) (imageBytes : ImageBytes) :
    Except String ℚ :=
  interpreter imageBytes

/-- An ASCII single-quote character, used in the loader error message. -/
def squote : String := String.singleton (Char.ofNat 39)

/-- The `RuntimeError` message raised at the end of `_create_interpreter`
when no backend succeeded: it carries the model file name, a hint when the
TensorFlow fallback is disabled, and the joined per-backend errors. -/
def loadFailureMessage (modelPathName : String) (allowTensorflowFallback : Bool)
    (errors : List String) : String :=
  let joinedErrors := String.intercalate "; " errors
  let tfHint :=
    if allowTensorflowFallback then ""
    else " Set ALLOW_TF_LITE_FALLBACK=1 to permit TensorFlow as a fallback."
  "Could not load " ++ squote ++ modelPathName ++ squote ++
    ". Install tflite-runtime." ++ tfHint ++ " Loader errors: " ++ joinedErrors

/-- `_create_interpreter(model_path)`: try the `tflite_runtime` backend
first; on any exception record `tflite-runtime: {exc}` and, if
`ALLOW_TENSORFLOW_FALLBACK`, try the `tensorflow` backend, recording
`tensorflow: {exc}` on failure; if nothing succeeded raise a single
`RuntimeError` built by `loadFailureMessage`.  The two backend loaders are
external imports, passed as parameters; `modelPathName` is
`model_path.name`. -/
def _create_interpreter (tfliteLoad : String → Except String Interpreter)
    (tensorflowLoad : String → Except String Interpreter)
    (allowTensorflowFallback : Bool) (modelPathName : String) :
    Except String Interpreter :=
  match tfliteLoad modelPathName with
  | Except.ok interp => Except.ok interp
  | Except.error exc1 =>
    let errors1 := ["tflite-runtime: " ++ exc1]
    if allowTensorflowFallback then
      match tensorflowLoad modelPathName with
      | Except.ok interp => Except.ok interp
      | Except.error exc2 =>
        Except.error (loadFailureMessage modelPathName allowTensorflowFallback
          (errors1 ++ ["tensorflow: " ++ exc2]))
    else
      Except.error (loadFailureMessage modelPathName allowTensorflowFallback errors1)

/-- `MODEL_PATHS`: the static configuration of (model name, file name)
pairs; file names are relative to `BASE_DIR`. -/
def MODEL_PATHS : List (String × String) :=
  [("ResNet50", "resnet50_cataract_99percent_float16.tflite"),
   ("DenseNet121", "densenet121_cataract.tflite")]

/-- The `for model_name, model_path in MODEL_PATHS` loop of `_load_models`:
skip specs whose file does not exist; for existing files call
`_create_interpreter` (whose exception, if any, propagates uncaught) and
append `(model_name, interpreter)` to the accumulated list. -/
def loadModelsLoop (createInterpreter : String → Except String Interpreter)
    (fileExists : String → Bool) :
    List (String × String) → Except String (List (String × Interpreter))
  | [] => Except.ok []
  | (modelName, modelPath) :: rest =>
    if !fileExists modelPath then
      loadModelsLoop createInterpreter fileExists rest
    else
      match createInterpreter modelPath with
      | Except.error exc => Except.error exc
      | Except.ok interp =>
        match loadModelsLoop createInterpreter fileExists rest with
        | Except.error exc => Except.error exc
        | Except.ok loaded => Except.ok ((modelName, interp) :: loaded)

/-- `_load_models()`: run the loading loop over the configured specs; if the
accumulated list is empty raise `RuntimeError` naming every configured file,
otherwise commit the list (the new value of `_loaded_models`). -/
def _load_models (createInterpreter : String → Except String Interpreter)
    (modelPaths : List (String × String)) (fileExists : String → Bool) :
    Except String (List (String × Interpreter)) :=
  match loadModelsLoop createInterpreter fileExists modelPaths with
  | Except.error exc => Except.error exc
  | Except.ok loadedModels =>
    if loadedModels.isEmpty then
      Except.error ("No models could be loaded. Expected at least one of: " ++
        String.intercalate ", " (modelPaths.map Prod.snd))
    else
      Except.ok loadedModels

/-- `startup()`: just calls `_load_models()` on the static `MODEL_PATHS`;
an exception makes FastAPI startup fail, so the service is serving-ready
exactly when this returns `Except.ok`. -/
def startup (createInterpreter : String → Except String Interpreter)
    (fileExists : String → Bool) :
    Except String (List (String × Interpreter)) :=
  _load_models createInterpreter MODEL_PATHS fileExists

/-- Round-half-to-even to an integer, as the Python builtin `round` (ties go
to the even neighbour). -/
def roundHalfEven (q : ℚ) : ℤ :=
  let f := ⌊q⌋
  let r := q - f
  if r < 1/2 then f
  else if 1/2 < r then f + 1
  else if f % 2 = 0 then f else f + 1

/-- Equality decider for `Except`, so that results of the embedded
operations can be compared by `decide`. -/
instance {ε α : Type} [DecidableEq ε] [DecidableEq α] :
    DecidableEq (Except ε α)
  | Except.ok a, Except.ok b =>
    if h : a = b then isTrue (by rw [h]) else isFalse (by simp [h])
  | Except.error e, Except.error f =>
    if h : e = f then isTrue (by rw [h]) else isFalse (by simp [h])
  | Except.ok _, Except.error _ => isFalse (by simp)
  | Except.error _, Except.ok _ => isFalse (by simp)

/-- The Python call `round(q, n)`: round at `n` decimal digits, half to even. -/
def pyRound (q : ℚ) (n : ℕ) : ℚ :=
  (roundHalfEven (q * 10 ^ n) : ℚ) / 10 ^ n

/-- The JSON dict returned by `_predict` (without the `inferenceTime` key,
which the `/predict` route adds from the wall clock afterwards). -/
structure PredictResult where
  prediction : ℚ
  className : String
  confidence : ℚ
  modelsUsed : List String
  ensembleMode : Bool
  deriving DecidableEq, Repr

/-- The `for model_name, interpreter in _loaded_models` loop of `_predict`:
run inference with every model in order, accumulating `predictions` and
`models_used`; an exception from any `_run_inference` call propagates
uncaught, aborting the loop. -/
def runModels (imageBytes : ImageBytes) :
    List (String × Interpreter) → Except String (List ℚ × List String)
  | [] => Except.ok ([], [])
  | (modelName, interpreter) :: rest =>
    match _run_inference interpreter imageBytes with
    | Except.error exc => Except.error exc
    | Except.ok prediction =>
      match runModels imageBytes rest with
      | Except.error exc => Except.error exc
      | Except.ok (predictions, modelsUsed) =>
        Except.ok (prediction :: predictions, modelName :: modelsUsed)

/-- `_predict(image_bytes)`: raise if no models are loaded; otherwise run
every loaded model, average the scores, threshold at 0.7 and build the
result dict. -/
def _predict (loadedModels : List (String × Interpreter))
    (imageBytes : ImageBytes) : Except String PredictResult :=
  if loadedModels.isEmpty then
    Except.error "No model interpreters loaded"
  else
    match runModels imageBytes loadedModels with
    | Except.error exc => Except.error exc
    | Except.ok (predictions, modelsUsed) =>
      let avgPrediction := predictions.sum / (predictions.length : ℚ)
      let className := if avgPrediction < 7/10 then "Cataract" else "Normal"
      let confidence :=
        if avgPrediction < 7/10 then (1 - avgPrediction) * 100
        else avgPrediction * 100
      Except.ok
        { prediction := pyRound avgPrediction 4
          className := className
          confidence := pyRound confidence 2
          modelsUsed := modelsUsed
          ensembleMode := decide (1 < modelsUsed.length) }

/-- The JSON dict returned by the `/health` endpoint. -/
structure HealthResponse where
  status : String
  modelsLoaded : List String
  ensembleMode : Bool
  tensorflowFallbackEnabled : Bool
  deriving DecidableEq, Repr

/-- `GET /health`. -/
def health (loadedModels : List (String × Interpreter))
    (allowTensorflowFallback : Bool) : HealthResponse :=
  { status := "healthy"
    modelsLoaded := loadedModels.map Prod.fst
    ensembleMode := decide (1 < loadedModels.length)
    tensorflowFallbackEnabled := allowTensorflowFallback }

/-- A non-200 outcome of the `/predict` route: an explicit
`HTTPException(status_code, detail)`, or an uncaught exception (which the
framework turns into a 500). -/
inductive RequestFailure where
  | http (statusCode : Nat) (detail : String)
  | unhandled (exc : String)
  deriving DecidableEq, Repr

/-- Truthiness of `file.content_type` (an optional string): `None` and the
empty string are falsy. -/
def contentTypeTruthy : Option String → Bool
  | none => false
  | some s => !s.isEmpty

/-- `POST /predict`: reject a truthy content type not starting with
`image/`, then reject an empty body, then run `_predict` on the bytes.
The wall-clock `inferenceTime` field added to the dict is outside the
embedding. -/
def predictRoute (loadedModels : List (String × Interpreter))
    (contentType : Option String) (body : ImageBytes) :
    Except RequestFailure PredictResult :=
  if contentTypeTruthy contentType &&
      !((contentType.getD "").startsWith "image/") then
    Except.error (RequestFailure.http 400 "File must be an image")
  else if body.isEmpty then
    Except.error (RequestFailure.http 400 "Empty file")
  else
    match _predict loadedModels body with
    | Except.error exc => Except.error (RequestFailure.unhandled exc)
    | Except.ok result => Except.ok result

/-! Helper lemmas about the embedded operations. -/

/-- The lower rounding bound: `roundHalfEven` never goes below the floor. -/
theorem roundHalfEven_ge_floor (q : ℚ) : ⌊q⌋ ≤ roundHalfEven q := by
  simp only [roundHalfEven]
  split_ifs <;> omega

/-- The upper rounding bound: `roundHalfEven` never exceeds the ceiling. -/
theorem roundHalfEven_le_ceil (q : ℚ) : roundHalfEven q ≤ ⌈q⌉ := by
  simp only [roundHalfEven]
  split_ifs with h1 h2 h3
  · exact Int.floor_le_ceil q
  · have hq : (⌊q⌋ : ℚ) < q := by linarith
    have := Int.lt_ceil.mpr hq
    omega
  · exact Int.floor_le_ceil q
  · have hq : (⌊q⌋ : ℚ) < q := by linarith
    have := Int.lt_ceil.mpr hq
    omega

/-- `pyRound` of a nonnegative rational is nonnegative. -/
theorem pyRound_nonneg {q : ℚ} (h : 0 ≤ q) (n : ℕ) : 0 ≤ pyRound q n := by
  unfold pyRound
  apply div_nonneg _ (by positivity)
  have h1 : (0 : ℤ) ≤ ⌊q * 10 ^ n⌋ := Int.floor_nonneg.mpr (by positivity)
  have h2 := roundHalfEven_ge_floor (q * 10 ^ n)
  exact_mod_cast le_trans h1 h2

/-- `pyRound` at two digits of a rational at most 100 is at most 100. -/
theorem pyRound_le_hundred {q : ℚ} (h : q ≤ 100) : pyRound q 2 ≤ 100 := by
  unfold pyRound
  rw [div_le_iff₀ (by positivity)]
  have h1 := roundHalfEven_le_ceil (q * 10 ^ 2)
  have h2 : ⌈q * 10 ^ 2⌉ ≤ 10000 := by
    apply Int.ceil_le.mpr
    push_cast
    nlinarith
  have : ((roundHalfEven (q * 10 ^ 2) : ℚ)) ≤ 10000 := by exact_mod_cast le_trans h1 h2
  norm_num at this ⊢
  linarith

/-- Inversion for the inference loop: a successful run reports exactly the
configured model names, in order, with one score per model. -/
theorem runModels_ok_spec (img : ImageBytes) :
    ∀ (models : List (String × Interpreter)) (ps : List ℚ) (ns : List String),
      runModels img models = Except.ok (ps, ns) →
      ns = models.map Prod.fst ∧ ps.length = models.length := by
  intro models
  induction models with
  | nil =>
    intro ps ns h
    simp only [runModels, Except.ok.injEq, Prod.mk.injEq] at h
    obtain ⟨h1, h2⟩ := h
    subst h1; subst h2
    simp
  | cons m rest ih =>
    intro ps ns h
    obtain ⟨mn, mi⟩ := m
    simp only [runModels, _run_inference] at h
    cases hmi : mi img with
    | error e => rw [hmi] at h; exact absurd h (by simp)
    | ok p =>
      rw [hmi] at h
      cases hrest : runModels img rest with
      | error e => rw [hrest] at h; exact absurd h (by simp)
      | ok pr =>
        obtain ⟨ps', ns'⟩ := pr
        rw [hrest] at h
        simp only [Except.ok.injEq, Prod.mk.injEq] at h
        obtain ⟨hps, hns⟩ := h
        obtain ⟨h1, h2⟩ := ih ps' ns' hrest
        subst hps; subst hns
        simp [h1, h2]

/-- Inversion for `_predict`: a successful prediction implies a non-empty
registry and a successful inference loop, and fixes the bookkeeping fields
of the result. -/
theorem predict_ok_inv (models : List (String × Interpreter)) (img : ImageBytes)
    (r : PredictResult) (hok : _predict models img = Except.ok r) :
    models ≠ [] ∧
    r.modelsUsed = models.map Prod.fst ∧
    r.ensembleMode = decide (1 < models.length) ∧
    ∃ ps, runModels img models = Except.ok (ps, models.map Prod.fst) ∧
      ps.length = models.length := by
  unfold _predict at hok
  by_cases hne : models.isEmpty
  · rw [if_pos hne] at hok; exact absurd hok (by simp)
  · rw [if_neg hne] at hok
    cases hrun : runModels img models with
    | error e => rw [hrun] at hok; exact absurd hok (by simp)
    | ok pr =>
      obtain ⟨ps, ns⟩ := pr
      rw [hrun] at hok
      obtain ⟨hns, hlen⟩ := runModels_ok_spec img models ps ns hrun
      simp only [Except.ok.injEq] at hok
      subst hok
      subst hns
      refine ⟨by simpa [List.isEmpty_iff] using hne, rfl, by simp, ps, rfl, hlen⟩

/-- An error from the loading loop of one prefix propagates through the
loading loop of any extension of that prefix, provided the prefix itself
loaded cleanly. -/
theorem loadModelsLoop_append_error (ci : String → Except String Interpreter)
    (fe : String → Bool) (rest : List (String × String)) (e : String)
    (hrest : loadModelsLoop ci fe rest = Except.error e) :
    ∀ (pre : List (String × String)) (hs : List (String × Interpreter)),
      loadModelsLoop ci fe pre = Except.ok hs →
      loadModelsLoop ci fe (pre ++ rest) = Except.error e := by
  intro pre
  induction pre with
  | nil => intro hs _; simpa using hrest
  | cons spec pre' ih =>
    intro hs h
    obtain ⟨mn, mp⟩ := spec
    by_cases hf : fe mp = true
    · simp only [loadModelsLoop, hf, Bool.not_true, Bool.false_eq_true, if_false,
        List.cons_append] at h ⊢
      cases hc : ci mp with
      | error e' => rw [hc] at h; exact absurd h (by simp)
      | ok interp =>
        rw [hc] at h
        cases hl : loadModelsLoop ci fe pre' with
        | error e' => rw [hl] at h; exact absurd h (by simp)
        | ok hs' => rw [List.append_eq, ih hs' hl]
    · simp only [Bool.not_eq_true] at hf
      simp only [loadModelsLoop, hf, Bool.not_false, if_true, List.cons_append] at h ⊢
      exact ih hs h

/-- A model whose file exists but whose whole backend chain fails makes the
loading loop raise immediately. -/
theorem loadModelsLoop_head_error (ci : String → Except String Interpreter)
    (fe : String → Bool) (modelName modelPath : String)
    (post : List (String × String)) (exc : String)
    (hfe : fe modelPath = true) (hci : ci modelPath = Except.error exc) :
    loadModelsLoop ci fe ((modelName, modelPath) :: post) = Except.error exc := by
  simp [loadModelsLoop, hfe, hci]

/-- If some loaded model fails on the given image, the inference loop as a
whole raises (it stops at the first failing model). -/
theorem runModels_error_of_mem (img : ImageBytes) :
    ∀ (models : List (String × Interpreter)) (n : String) (f : Interpreter)
      (e : String), (n, f) ∈ models → f img = Except.error e →
      ∃ eFirst, runModels img models = Except.error eFirst := by
  intro models
  induction models with
  | nil => intro n f e hmem _; exact absurd hmem (by simp)
  | cons m rest ih =>
    intro n f e hmem herr
    obtain ⟨mn, mi⟩ := m
    simp only [runModels, _run_inference]
    cases hmi : mi img with
    | error e' => exact ⟨e', rfl⟩
    | ok p =>
      rcases List.mem_cons.mp hmem with hhead | htail
      · obtain ⟨h1, h2⟩ := Prod.mk.injEq .. ▸ hhead
        subst h2
        rw [herr] at hmi
        exact absurd hmi (by simp)
      · obtain ⟨eF, hrest⟩ := ih n f e htail herr
        rw [hrest]
        exact ⟨eF, rfl⟩

/-! Claims. -/

/-- Claim C1, counterexample: a registry of two loaded models where the
first raises; `_predict` does not return a result computed from the
surviving model (score 1/2) — it raises the failed model error, so no call
returns a `modelsUsed` list omitting the failed name. -/
theorem C1_counterexample :
    _predict [("ResNet50", fun _ => Except.error "boom"),
              ("DenseNet121", fun _ => Except.ok (1/2))] [0] =
      Except.error "boom" ∧
    ∀ r, _predict [("ResNet50", fun _ => Except.error "boom"),
                   ("DenseNet121", fun _ => Except.ok (1/2))] [0] ≠
      Except.ok r := by
  constructor
  · rfl
  · intro r h
    rw [show _predict [("ResNet50", fun _ => Except.error "boom"),
          ("DenseNet121", fun _ => Except.ok (1/2))] [0] =
          Except.error "boom" from rfl] at h
    exact absurd h (by simp)

/-- Claim C1, amended: in a registry with at least two loaded models, if any
one model inference call raises, the error propagates out of `_predict`
uncaught — the request fails as a whole and no result (hence no
`modelsUsed` list) is produced. -/
theorem C1_amended (m1 m2 : String × Interpreter)
    (rest : List (String × Interpreter)) (img : ImageBytes)
    (n : String) (f : Interpreter) (e : String)
    (hmem : (n, f) ∈ m1 :: m2 :: rest) (herr : f img = Except.error e) :
    ∃ eFirst, _predict (m1 :: m2 :: rest) img = Except.error eFirst ∧
      ∀ r, _predict (m1 :: m2 :: rest) img ≠ Except.ok r := by
  obtain ⟨eF, hrun⟩ := runModels_error_of_mem img _ n f e hmem herr
  refine ⟨eF, ?_, ?_⟩
  · simp only [_predict, List.isEmpty_cons, Bool.false_eq_true, if_false, hrun]
  · intro r h
    simp only [_predict, List.isEmpty_cons, Bool.false_eq_true, if_false, hrun] at h
    exact absurd h (by simp)

/-- Claim C1, witness for the amended statement: the concrete two-model
registry above. -/
theorem C1_amended_witness :
    ∃ eFirst, _predict [("ResNet50", fun _ => Except.error "boom"),
        ("DenseNet121", fun _ => Except.ok (1/2))] [0] = Except.error eFirst ∧
      ∀ r, _predict [("ResNet50", fun _ => Except.error "boom"),
        ("DenseNet121", fun _ => Except.ok (1/2))] [0] ≠ Except.ok r :=
  C1_amended _ _ [] [0] "ResNet50" (fun _ => Except.error "boom") "boom"
    (List.mem_cons_self ..) rfl

/-- Claim C2, counterexample: two specs, both files on disk, the first
model whole load chain fails while the second would load fine; the spec
says the failed model is merely dropped (it is neither required nor the
last candidate), but `_load_models` raises the load error for the whole
registry. -/
theorem C2_counterexample :
    _load_models
      (fun p => if p = "a.tflite" then Except.error "chain failed"
                else Except.ok (fun _ => Except.ok 1))
      [("A", "a.tflite"), ("B", "b.tflite")] (fun _ => true) =
      Except.error "chain failed" := rfl

/-- Claim C2, amended: during registry loading, a model spec whose file
exists but whose entire backend load chain fails always aborts the whole
load with that error — regardless of its position among the specs, of how
many handles have already accumulated, and with no `required` marking in
the code. -/
theorem C2_amended (ci : String → Except String Interpreter)
    (fe : String → Bool) (pre : List (String × String))
    (modelName modelPath : String) (post : List (String × String))
    (handles : List (String × Interpreter)) (exc : String)
    (hpre : loadModelsLoop ci fe pre = Except.ok handles)
    (hfe : fe modelPath = true) (hci : ci modelPath = Except.error exc) :
    _load_models ci (pre ++ (modelName, modelPath) :: post) fe =
      Except.error exc := by
  have hhead := loadModelsLoop_head_error ci fe modelName modelPath post exc hfe hci
  have hall := loadModelsLoop_append_error ci fe _ exc hhead pre handles hpre
  unfold _load_models
  rw [hall]

/-- Claim C2, witness for the amended statement: the failing model sits in
the middle of three specs, one handle has already accumulated, and a
loadable candidate follows — the whole load still fails. -/
theorem C2_amended_witness :
    _load_models
      (fun p => if p = "b.tflite" then Except.error "chain failed"
                else Except.ok (fun _ => Except.ok 1))
      ([("A", "a.tflite")] ++ ("B", "b.tflite") :: [("C", "c.tflite")])
      (fun _ => true) = Except.error "chain failed" :=
  C2_amended _ _ [("A", "a.tflite")] "B" "b.tflite" [("C", "c.tflite")]
    [("A", fun _ => Except.ok 1)] "chain failed" rfl rfl rfl

/-- Claim C5, counterexample: a non-empty registry where every inference
call fails; `_predict` raises the first underlying model error, which is
neither a distinct `NoPredictionsAvailable` signal nor the registry-empty
error — no such distinct condition exists in the code. -/
theorem C5_counterexample :
    _predict [("ResNet50", fun _ => Except.error "errA"),
              ("DenseNet121", fun _ => Except.error "errB")] [0] =
      Except.error "errA" ∧
    "errA" ≠ "NoPredictionsAvailable" ∧
    "errA" ≠ "No model interpreters loaded" := by
  refine ⟨rfl, by decide, by decide⟩

/-- Claim C5, amended: if the registry is non-empty and every per-model
inference call fails for a request, `_predict` propagates the error of the
first model unchanged; there is no separate `NoPredictionsAvailable`
condition and the zero-scores state is unreachable. -/
theorem C5_amended (n : String) (f : Interpreter)
    (rest : List (String × Interpreter)) (img : ImageBytes) (e : String)
    (_hall : ∀ m ∈ (n, f) :: rest, ∃ e', m.2 img = Except.error e')
    (hf : f img = Except.error e) :
    _predict ((n, f) :: rest) img = Except.error e := by
  simp only [_predict, List.isEmpty_cons, Bool.false_eq_true, if_false,
    runModels, _run_inference, hf]

/-- Claim C5, witness for the amended statement: both models fail, the
first model error is returned. -/
theorem C5_amended_witness :
    _predict [("ResNet50", fun _ => Except.error "errA"),
              ("DenseNet121", fun _ => Except.error "errB")] [0] =
      Except.error "errA" :=
  C5_amended "ResNet50" (fun _ => Except.error "errA")
    [("DenseNet121", fun _ => Except.error "errB")] [0] "errA"
    (by intro m hm
        rcases List.mem_cons.mp hm with h | h
        · exact ⟨"errA", by rw [h]⟩
        · simp only [List.mem_singleton] at h
          exact ⟨"errB", by rw [h]⟩)
    rfl

/-- Claim C6, confirmed: whenever the loading loop over the configured
specs accumulates an empty handle list, `startup` raises the fatal
no-models error, whose message carries every configured model file name,
and the service never reaches a serving-ready (`Except.ok`) state. -/
theorem C6_no_models (ci : String → Except String Interpreter)
    (fe : String → Bool)
    (hempty : loadModelsLoop ci fe MODEL_PATHS = Except.ok []) :
    startup ci fe =
      Except.error ("No models could be loaded. Expected at least one of: " ++
        String.intercalate ", " (MODEL_PATHS.map Prod.snd)) ∧
    ∀ registry, startup ci fe ≠ Except.ok registry := by
  have hload : startup ci fe =
      Except.error ("No models could be loaded. Expected at least one of: " ++
        String.intercalate ", " (MODEL_PATHS.map Prod.snd)) := by
    unfold startup _load_models
    rw [hempty]
    rfl
  refine ⟨hload, ?_⟩
  intro registry h
  rw [hload] at h
  exact absurd h (by simp)

/-- Claim C6, witness: no configured file exists on disk, so the loop
accumulates nothing; startup fails with the message naming both files. -/
theorem C6_no_models_witness :
    startup (fun _ => Except.error "no backend") (fun _ => false) =
      Except.error ("No models could be loaded. Expected at least one of: " ++
        String.intercalate ", " (MODEL_PATHS.map Prod.snd)) ∧
    ∀ registry, startup (fun _ => Except.error "no backend") (fun _ => false) ≠
      Except.ok registry :=
  C6_no_models (fun _ => Except.error "no backend") (fun _ => false) rfl

/-- Claim C7, confirmed: `_create_interpreter` tries the lightweight
`tflite_runtime` backend first and returns its handle on success; on any
exception there it silently proceeds to the `tensorflow` backend when the
fallback is permitted; and when no backend succeeds it raises a single
error bearing the model file name and each attempted backend failure
reason. -/
theorem C7_backend_chain (tfliteLoad tensorflowLoad : String → Except String Interpreter)
    (modelPathName : String) :
    (∀ interp, tfliteLoad modelPathName = Except.ok interp →
      ∀ allow, _create_interpreter tfliteLoad tensorflowLoad allow modelPathName =
        Except.ok interp) ∧
    (∀ exc1 interp, tfliteLoad modelPathName = Except.error exc1 →
      tensorflowLoad modelPathName = Except.ok interp →
      _create_interpreter tfliteLoad tensorflowLoad true modelPathName =
        Except.ok interp) ∧
    (∀ exc1 exc2, tfliteLoad modelPathName = Except.error exc1 →
      tensorflowLoad modelPathName = Except.error exc2 →
      _create_interpreter tfliteLoad tensorflowLoad true modelPathName =
        Except.error (loadFailureMessage modelPathName true
          ["tflite-runtime: " ++ exc1, "tensorflow: " ++ exc2])) ∧
    (∀ exc1, tfliteLoad modelPathName = Except.error exc1 →
      _create_interpreter tfliteLoad tensorflowLoad false modelPathName =
        Except.error (loadFailureMessage modelPathName false
          ["tflite-runtime: " ++ exc1])) := by
  refine ⟨?_, ?_, ?_, ?_⟩
  · intro interp h allow
    unfold _create_interpreter
    rw [h]
  · intro exc1 interp h1 h2
    unfold _create_interpreter
    rw [h1, h2]
    exact rfl
  · intro exc1 exc2 h1 h2
    unfold _create_interpreter
    rw [h1, h2]
    exact rfl
  · intro exc1 h1
    unfold _create_interpreter
    rw [h1]
    exact rfl

/-- Claim C7, witness: both backends fail concretely; the single raised
error carries the file name and the two per-backend reasons. -/
theorem C7_backend_chain_witness :
    _create_interpreter (fun _ => Except.error "lib missing")
      (fun _ => Except.error "tf missing") true "m.tflite" =
      Except.error (loadFailureMessage "m.tflite" true
        ["tflite-runtime: lib missing", "tensorflow: tf missing"]) :=
  (C7_backend_chain (fun _ => Except.error "lib missing")
    (fun _ => Except.error "tf missing") "m.tflite").2.2.1
    "lib missing" "tf missing" rfl rfl

/-- Claim C8, confirmed: with two configured specs of which exactly one
file is missing on disk (either one), loading skips the missing file, the
registry commits with the single loaded model, and both the health response
and every successful prediction report `ensembleMode = false`. -/
theorem C8_single_model (n1 p1 n2 p2 : String)
    (ci : String → Except String Interpreter) (fe : String → Bool)
    (allowFallback : Bool) :
    (∀ interp : Interpreter, fe p1 = false → fe p2 = true →
      ci p2 = Except.ok interp →
      _load_models ci [(n1, p1), (n2, p2)] fe = Except.ok [(n2, interp)] ∧
      (health [(n2, interp)] allowFallback).ensembleMode = false ∧
      ∀ img r, _predict [(n2, interp)] img = Except.ok r →
        r.ensembleMode = false) ∧
    (∀ interp : Interpreter, fe p1 = true → fe p2 = false →
      ci p1 = Except.ok interp →
      _load_models ci [(n1, p1), (n2, p2)] fe = Except.ok [(n1, interp)] ∧
      (health [(n1, interp)] allowFallback).ensembleMode = false ∧
      ∀ img r, _predict [(n1, interp)] img = Except.ok r →
        r.ensembleMode = false) := by
  constructor
  · intro interp h1 h2 hci
    have hloop : loadModelsLoop ci fe [(n1, p1), (n2, p2)] =
        Except.ok [(n2, interp)] := by
      simp [loadModelsLoop, h1, h2, hci]
    refine ⟨?_, rfl, ?_⟩
    · unfold _load_models
      rw [hloop]
      rfl
    · intro img r hok
      have hmode := (predict_ok_inv _ img r hok).2.2.1
      simpa using hmode
  · intro interp h1 h2 hci
    have hloop : loadModelsLoop ci fe [(n1, p1), (n2, p2)] =
        Except.ok [(n1, interp)] := by
      simp [loadModelsLoop, h1, h2, hci]
    refine ⟨?_, rfl, ?_⟩
    · unfold _load_models
      rw [hloop]
      rfl
    · intro img r hok
      have hmode := (predict_ok_inv _ img r hok).2.2.1
      simpa using hmode

/-- Claim C8, witness: both orders of the missing file, concretely. -/
theorem C8_single_model_witness :
    (_load_models (fun _ => Except.ok (fun _ => Except.ok 1))
        [("ResNet50", "a.tflite"), ("DenseNet121", "b.tflite")]
        (fun p => decide (p = "b.tflite")) =
        Except.ok [("DenseNet121", fun _ => Except.ok 1)] ∧
      (health [("DenseNet121", fun _ => Except.ok 1)] false).ensembleMode =
        false) ∧
    (_load_models (fun _ => Except.ok (fun _ => Except.ok 1))
        [("ResNet50", "a.tflite"), ("DenseNet121", "b.tflite")]
        (fun p => decide (p = "a.tflite")) =
        Except.ok [("ResNet50", fun _ => Except.ok 1)] ∧
      (health [("ResNet50", fun _ => Except.ok 1)] false).ensembleMode =
        false) := by
  constructor
  · have h := (C8_single_model "ResNet50" "a.tflite" "DenseNet121" "b.tflite"
      (fun _ => Except.ok (fun _ => Except.ok 1))
      (fun p => decide (p = "b.tflite")) false).1
      (fun _ => Except.ok 1) (by decide) (by decide) rfl
    exact ⟨h.1, h.2.1⟩
  · have h := (C8_single_model "ResNet50" "a.tflite" "DenseNet121" "b.tflite"
      (fun _ => Except.ok (fun _ => Except.ok 1))
      (fun p => decide (p = "a.tflite")) false).2
      (fun _ => Except.ok 1) (by decide) (by decide) rfl
    exact ⟨h.1, h.2.1⟩

/-- Claim C9, confirmed: an empty upload body always yields the 400
validation error, whatever the declared content type; and when the content
type is absent or starts with `image/`, the detail is exactly
`Empty file`. -/
theorem C9_empty_body (loadedModels : List (String × Interpreter))
    (contentType : Option String) :
    (∃ d, predictRoute loadedModels contentType [] =
      Except.error (RequestFailure.http 400 d)) ∧
    ((contentType = none ∨
        ∃ s, contentType = some s ∧ s.startsWith "image/" = true) →
      predictRoute loadedModels contentType [] =
        Except.error (RequestFailure.http 400 "Empty file")) := by
  constructor
  · by_cases h : (contentTypeTruthy contentType &&
        !((contentType.getD "").startsWith "image/")) = true
    · refine ⟨"File must be an image", ?_⟩
      unfold predictRoute
      rw [if_pos h]
    · refine ⟨"Empty file", ?_⟩
      unfold predictRoute
      rw [if_neg h]
      rfl
  · rintro (rfl | ⟨s, rfl, hs⟩)
    · rfl
    · have hcond : (contentTypeTruthy (some s) &&
          !(((some s : Option String).getD "").startsWith "image/")) = false := by
        simp [hs]
      unfold predictRoute
      rw [hcond]
      rfl

/-- Claim C9, witness: an absent content type with an empty body. -/
theorem C9_empty_body_witness :
    predictRoute [] none [] =
      Except.error (RequestFailure.http 400 "Empty file") :=
  (C9_empty_body [] none).2 (Or.inl rfl)

/-- Claim C3, confirmed: for every successful prediction, the label is
decided by the mean score against the fixed boundary 0.7 — strictly below
gives `Cataract` with confidence `(1 - mean) * 100`, at or above (boundary
inclusive) gives `Normal` with confidence `mean * 100`, each rounded to two
decimals by `round`. -/
theorem C3_threshold (models : List (String × Interpreter)) (img : ImageBytes)
    (ps : List ℚ) (ns : List String) (hne : models ≠ [])
    (hrun : runModels img models = Except.ok (ps, ns)) :
    ∃ r, _predict models img = Except.ok r ∧
      (ps.sum / (ps.length : ℚ) < 7/10 →
        r.className = "Cataract" ∧
        r.confidence = pyRound ((1 - ps.sum / (ps.length : ℚ)) * 100) 2) ∧
      (7/10 ≤ ps.sum / (ps.length : ℚ) →
        r.className = "Normal" ∧
        r.confidence = pyRound (ps.sum / (ps.length : ℚ) * 100) 2) := by
  have hne' : models.isEmpty = false := by
    simp [List.isEmpty_iff, hne]
  unfold _predict
  rw [hne', hrun]
  refine ⟨_, rfl, ?_, ?_⟩
  · intro h
    constructor
    · show (if ps.sum / (ps.length : ℚ) < 7/10 then "Cataract" else "Normal") =
        "Cataract"
      rw [if_pos h]
    · show pyRound (if ps.sum / (ps.length : ℚ) < 7/10 then
          (1 - ps.sum / (ps.length : ℚ)) * 100
          else ps.sum / (ps.length : ℚ) * 100) 2 =
        pyRound ((1 - ps.sum / (ps.length : ℚ)) * 100) 2
      rw [if_pos h]
  · intro h
    have h' := not_lt.mpr h
    constructor
    · show (if ps.sum / (ps.length : ℚ) < 7/10 then "Cataract" else "Normal") =
        "Normal"
      rw [if_neg h']
    · show pyRound (if ps.sum / (ps.length : ℚ) < 7/10 then
          (1 - ps.sum / (ps.length : ℚ)) * 100
          else ps.sum / (ps.length : ℚ) * 100) 2 =
        pyRound (ps.sum / (ps.length : ℚ) * 100) 2
      rw [if_neg h']

/-- Claim C3, witness: one model scoring exactly 0.7 — the boundary
resolves to `Normal`. -/
theorem C3_threshold_witness :
    ∃ r, _predict [("ResNet50", fun _ => Except.ok (7/10))] [0] =
        Except.ok r ∧
      ([(7:ℚ)/10].sum / (([(7:ℚ)/10].length : ℕ) : ℚ) < 7/10 →
        r.className = "Cataract" ∧
        r.confidence =
          pyRound ((1 - [(7:ℚ)/10].sum / (([(7:ℚ)/10].length : ℕ) : ℚ)) * 100) 2) ∧
      (7/10 ≤ [(7:ℚ)/10].sum / (([(7:ℚ)/10].length : ℕ) : ℚ) →
        r.className = "Normal" ∧
        r.confidence =
          pyRound ([(7:ℚ)/10].sum / (([(7:ℚ)/10].length : ℕ) : ℚ) * 100) 2) :=
  C3_threshold [("ResNet50", fun _ => Except.ok (7/10))] [0]
    [(7:ℚ)/10] ["ResNet50"] (by simp) rfl

/-- Claim C4, counterexample: scores are not clamped, so a model score of
2 yields a successful prediction whose reported confidence is 200, outside
[0,100] — the unconditional range claim is false. -/
theorem C4_counterexample :
    ∃ r, _predict [("ResNet50", fun _ => Except.ok 2)] [0] = Except.ok r ∧
      r.confidence = 200 ∧ ¬(0 ≤ r.confidence ∧ r.confidence ≤ 100) := by
  refine ⟨{ prediction := 2, className := "Normal", confidence := 200,
            modelsUsed := ["ResNet50"], ensembleMode := false }, ?_, rfl, ?_⟩
  · simp [_predict, runModels, _run_inference, pyRound, roundHalfEven]
    norm_num
  · norm_num

/-- Claim C4, amended: the reported confidence always equals
`round((1 - mean) * 100, 2)` under label `Cataract` and
`round(mean * 100, 2)` under label `Normal`; it lies in [0,100] whenever
the mean score lies in [0,1], but scores are not clamped, so out-of-range
scores produce out-of-range confidence. -/
theorem C4_amended (models : List (String × Interpreter)) (img : ImageBytes)
    (ps : List ℚ) (ns : List String) (r : PredictResult)
    (hrun : runModels img models = Except.ok (ps, ns))
    (hok : _predict models img = Except.ok r) :
    (r.className = "Cataract" →
      r.confidence = pyRound ((1 - ps.sum / (ps.length : ℚ)) * 100) 2) ∧
    (r.className = "Normal" →
      r.confidence = pyRound (ps.sum / (ps.length : ℚ) * 100) 2) ∧
    (0 ≤ ps.sum / (ps.length : ℚ) → ps.sum / (ps.length : ℚ) ≤ 1 →
      0 ≤ r.confidence ∧ r.confidence ≤ 100) := by
  unfold _predict at hok
  by_cases hne : models.isEmpty
  · rw [if_pos hne] at hok
    exact absurd hok (by simp)
  · rw [if_neg hne, hrun] at hok
    simp only [Except.ok.injEq] at hok
    subst hok
    by_cases hlt : ps.sum / (ps.length : ℚ) < 7/10
    · simp only [if_pos hlt]
      refine ⟨fun _ => trivial, fun hcn => absurd hcn (by decide),
        fun h0 h1 => ⟨pyRound_nonneg (by nlinarith) 2,
          pyRound_le_hundred (by nlinarith)⟩⟩
    · simp only [if_neg hlt]
      refine ⟨fun hcn => absurd hcn (by decide), fun _ => trivial,
        fun h0 h1 => ⟨pyRound_nonneg (by nlinarith) 2,
          pyRound_le_hundred (by nlinarith)⟩⟩

/-- Claim C4, witness for the amended statement: one model scoring 0.7 —
the label is `Normal`, the confidence obeys the round formula, and the
in-range mean gives an in-range confidence. -/
theorem C4_amended_witness :
    (70 : ℚ) = pyRound ([(7:ℚ)/10].sum / (([(7:ℚ)/10].length : ℕ) : ℚ) * 100) 2 ∧
    (0 ≤ (70 : ℚ) ∧ (70 : ℚ) ≤ 100) := by
  have h := C4_amended [("ResNet50", fun _ => Except.ok (7/10))] [0]
    [(7:ℚ)/10] ["ResNet50"]
    { prediction := 7/10, className := "Normal", confidence := 70,
      modelsUsed := ["ResNet50"], ensembleMode := false }
    rfl
    (by simp [_predict, runModels, _run_inference, pyRound, roundHalfEven]
        norm_num)
  exact ⟨h.2.1 rfl, h.2.2 (by norm_num) (by norm_num)⟩

/-- Claim C10, confirmed: every `_predict` call that returns a result
reports in `modelsUsed` exactly the names of all loaded registry models in
configuration order, sets `ensembleMode` iff more than one name is listed,
and collected a non-empty score list, so the averaging division is
well-defined. -/
theorem C10_result_invariants (models : List (String × Interpreter))
    (img : ImageBytes) (r : PredictResult)
    (hok : _predict models img = Except.ok r) :
    r.modelsUsed = models.map Prod.fst ∧
    r.ensembleMode = decide (1 < r.modelsUsed.length) ∧
    ∃ ps, runModels img models = Except.ok (ps, r.modelsUsed) ∧ ps ≠ [] := by
  obtain ⟨hne, hused, hmode, ps, hrun, hlen⟩ := predict_ok_inv models img r hok
  refine ⟨hused, ?_, ps, by rw [hused]; exact hrun, ?_⟩
  · rw [hmode, hused]
    simp
  · intro hnil
    subst hnil
    simp only [List.length_nil] at hlen
    exact hne (List.length_eq_zero.mp hlen.symm)

/-- Claim C10, witness: the concrete two-model ensemble (the result record
fields are stated through their definitional values). -/
theorem C10_result_invariants_witness :
    (["ResNet50", "DenseNet121"] : List String) =
      ([("ResNet50", fun _ => Except.ok (4/10)),
        ("DenseNet121", fun _ => Except.ok (8/10))] :
        List (String × Interpreter)).map Prod.fst ∧
    true = decide (1 < (["ResNet50", "DenseNet121"] : List String).length) ∧
    ∃ ps, runModels [0]
        [("ResNet50", fun _ => Except.ok (4/10)),
         ("DenseNet121", fun _ => Except.ok (8/10))] =
      Except.ok (ps, ["ResNet50", "DenseNet121"]) ∧ ps ≠ [] :=
  C10_result_invariants
    [("ResNet50", fun _ => Except.ok (4/10)),
     ("DenseNet121", fun _ => Except.ok (8/10))] [0]
    { prediction := 6/10, className := "Cataract", confidence := 40,
      modelsUsed := ["ResNet50", "DenseNet121"], ensembleMode := true }
    (by simp [_predict, runModels, _run_inference, pyRound, roundHalfEven]
        norm_num)
